import Mathlib

/-!
Shallow embedding of the convex-auth Next.js server core:
the action proxy (`proxyAuthActionToConvex`, `shouldProxyAuthAction`) and the
per-request authenticator (`handleAuthenticationInRequest`, `validateCors`,
`getRefreshedTokens`) from `src/nextjs/server`.

External adapters that are not part of the sources (`cookies.ts`, `utils.ts`,
the backend action invoker, `jwtDecode`) are modelled at their interface:
cookies as an explicit record threaded through the functions, the backend and
the JWT decoder as function parameters, and `isCorsRequest` from the spec.
JavaScript `undefined`/`null` on a cookie or result field is rendered as
`Option` (`none` = absent).
-/

namespace ConvexAuth

/-! Data model -/

structure TokenPair where
  token : String
  refreshToken : String
deriving DecidableEq

structure Cookies where
  token : Option String
  refreshToken : Option String
  verifier : Option String
deriving DecidableEq

/-- Discriminated result shape of the backend `auth:signIn` action
(`SignInAction["_returnType"]`): a `redirect` shape, a `tokens` shape whose
pair may be `null`, or an empty/`null` result carrying neither field. -/
inductive SignInResult where
  | redirect (url : String) (verifier : Option String)
  | tokens (pair : Option TokenPair)
  | empty
deriving DecidableEq

/-- Modelled from the spec: `isCorsRequest` lives in `utils.ts`, which is not
among the sources. Per the spec, a request is cross-origin iff its `Origin`
header is present and does not match the request's own origin/host. -/
def isCorsOrigin (origin : Option String) (selfOrigin : String) : Bool :=
  match origin with
  | none => false
  | some o => o != selfOrigin

/-! Action proxy (`proxyAuthActionToConvex`) -/

/-- Parsed request body `args` object: an optional `refreshToken` field plus
the remaining fields, kept opaque. -/
structure SignInArgs where
  refreshToken : Option String
  rest : List (String × String)
deriving DecidableEq

structure ProxyRequest where
  method : String
  origin : Option String
  requestOrigin : String
  action : String
  args : SignInArgs
deriving DecidableEq

/-- One invocation of the backend action invoker `fetchAction`:
the action name, the (possibly rewritten) args, and the optional bearer
token passed in the options. -/
structure BackendCall where
  action : String
  args : SignInArgs
  token : Option String
deriving DecidableEq

/-- JSON body of a proxy response. `clientTokens` is the serialized
`{ tokens: { token, refreshToken } }` object; `tokensNull` is
`{ tokens: null }`; `rawResult` is the fall-through `jsonResponse(result)`. -/
inductive JsonBody where
  | errorText (msg : String)
  | tokensNull
  | clientTokens (token : String) (refreshToken : String)
  | redirectTo (url : String)
  | rawResult (r : SignInResult)
  | jsonNull
deriving DecidableEq

/-- The `refreshToken` field of the JSON body, when the body carries a
serialized token pair under the `tokens` key. -/
def JsonBody.refreshTokenField : JsonBody → Option String
  | .clientTokens _ r => some r
  | .rawResult (.tokens (some p)) => some p.refreshToken
  | _ => none

/-- A proxy response: HTTP status, JSON body, and the cookie operations
performed on it. `authCookies = some (some p)` means `setAuthCookies` wrote
the pair `p`, `some none` means it cleared the auth cookies, `none` means the
auth cookies were not touched; likewise for the `verifier` cookie.
`backendCall` records the single `fetchAction` call, if one was made. -/
structure ProxyResponse where
  status : Nat
  body : JsonBody
  authCookies : Option (Option TokenPair)
  verifierCookie : Option (Option String)
  backendCall : Option BackendCall
deriving DecidableEq

/-- Response shaping for an `auth:signIn` backend result (the
`if (action === "auth:signIn")` block of `proxyAuthActionToConvex`):
a `redirect` result sets the verifier cookie; a `tokens` result is projected
to the client pair with the literal "dummy" refresh token (or `tokens: null`)
and sets/clears the auth cookies; any other result falls through to
`jsonResponse(result)`. -/
def signInResponse (result : SignInResult) (call : BackendCall) : ProxyResponse :=
  match result with
  | .redirect url verifier =>
    { status := 200, body := .redirectTo url, authCookies := none,
      verifierCookie := some verifier, backendCall := some call }
  | .tokens pair =>
    { status := 200,
      body := match pair with
        | some p => .clientTokens p.token "dummy"
        | none => .tokensNull,
      authCookies := some pair, verifierCookie := none, backendCall := some call }
  | .empty =>
    { status := 200, body := .rawResult .empty, authCookies := none,
      verifierCookie := none, backendCall := some call }

/-- Embedding of `proxyAuthActionToConvex` (src/nextjs/server/proxy):
reject non-POST with 405, cross-origin with 403, unknown actions with 400;
for `signIn` with a client-supplied `refreshToken`, substitute the cookie-held
refresh token (short-circuiting with `{ tokens: null }` when the cookie is
absent); otherwise attach the `token` cookie as bearer credential; invoke the
backend once and shape the response. The backend invoker is a parameter. -/
def proxyAuthActionToConvex (req : ProxyRequest) (cookies : Cookies)
    (backend : BackendCall → SignInResult) : ProxyResponse :=
  if req.method ≠ "POST" then
    { status := 405, body := .errorText "Invalid method", authCookies := none,
      verifierCookie := none, backendCall := none }
  else if isCorsOrigin req.origin req.requestOrigin then
    { status := 403, body := .errorText "Invalid origin", authCookies := none,
      verifierCookie := none, backendCall := none }
  else if req.action ≠ "auth:signIn" ∧ req.action ≠ "auth:signOut" then
    { status := 400, body := .errorText "Invalid action", authCookies := none,
      verifierCookie := none, backendCall := none }
  else if req.action = "auth:signIn" ∧ req.args.refreshToken ≠ none then
    match cookies.refreshToken with
    | none =>
      { status := 200, body := .tokensNull, authCookies := none,
        verifierCookie := none, backendCall := none }
    | some rt =>
      let call : BackendCall :=
        { action := req.action, args := { req.args with refreshToken := some rt },
          token := none }
      signInResponse (backend call) call
  else
    let call : BackendCall :=
      { action := req.action, args := req.args, token := cookies.token }
    if req.action = "auth:signIn" then
      signInResponse (backend call) call
    else
      { status := 200, body := .jsonNull, authCookies := some none,
        verifierCookie := none, backendCall := some call }

/-! Route matching (`shouldProxyAuthAction`) -/

/-- JavaScript `apiRoute.endsWith("/")`. -/
def jsEndsWithSlash (s : String) : Bool :=
  s.data.getLast? == some '/'

/-- JavaScript `apiRoute.slice(0, -1)`: drop the last character. -/
def jsDropLast (s : String) : String :=
  String.mk s.data.dropLast

/-- Embedding of `shouldProxyAuthAction`: match the request pathname against
the configured `apiRoute`, accepting it both with and without a trailing
slash. -/
def shouldProxyAuthAction (pathname apiRoute : String) : Bool :=
  if jsEndsWithSlash apiRoute then
    pathname == apiRoute || pathname == jsDropLast apiRoute
  else
    pathname == apiRoute || pathname == apiRoute ++ "/"

/-- Spec-side vocabulary for C10: the route spelled with a trailing slash. -/
def routeWithSlash (apiRoute : String) : String :=
  if jsEndsWithSlash apiRoute then apiRoute else apiRoute ++ "/"

/-- Spec-side vocabulary for C10: the route spelled without its single
trailing slash. -/
def routeWithoutSlash (apiRoute : String) : String :=
  if jsEndsWithSlash apiRoute then jsDropLast apiRoute else apiRoute

/-! Request authenticator (`handleAuthenticationInRequest` and helpers) -/

/-- Claims of a locally decoded JWT that the scheduler reads: `exp` and `iat`
in seconds. `jwtDecode` itself is external; it enters as a parameter
`decodeToken : String → Option DecodedToken` (`none` = decoding threw). -/
structure DecodedToken where
  exp : Int
  iat : Int
deriving DecidableEq

/-- One backend `fetchAction("auth:signIn", ...)` call made by the
authenticator: a refresh call with the cookie-held refresh token, or a code
exchange with `{ params: { code }, verifier }`. -/
inductive AuthCall where
  | refresh (refreshToken : String)
  | exchange (code : String) (verifier : Option String)
deriving DecidableEq

/-- Reply of the backend invoker: a structured result, or a transport
failure (the promise rejected / `fetchAction` threw). -/
inductive BackendReply where
  | ok (result : SignInResult)
  | err
deriving DecidableEq

structure Url where
  base : String
  params : List (String × String)
deriving DecidableEq

/-- JavaScript `url.searchParams.get(key)`: first value for the key,
`null` if absent. -/
def searchParamGet (params : List (String × String)) (key : String) : Option String :=
  (params.find? (fun p => p.1 == key)).map (fun p => p.2)

/-- JavaScript `url.searchParams.delete(key)`: remove every entry for the
key. -/
def searchParamDelete (params : List (String × String)) (key : String) :
    List (String × String) :=
  params.filter (fun p => p.1 != key)

structure AuthRequest where
  urlBase : String
  urlParams : List (String × String)
  method : String
  accept : Option String
  origin : Option String
  requestOrigin : String
deriving DecidableEq

/-- Whether `needle` starts the list `hay` (character-wise). -/
def startsWithChars : List Char → List Char → Bool
  | _, [] => true
  | [], _ :: _ => false
  | h :: hs, n :: ns => h == n && startsWithChars hs ns

/-- Whether `needle` occurs contiguously inside `hay`; models JavaScript
`String.prototype.includes`. -/
def containsChars : List Char → List Char → Bool
  | [], needle => startsWithChars [] needle
  | h :: t, needle => startsWithChars (h :: t) needle || containsChars t needle

/-- The check `request.headers.get("accept")?.includes("text/html")`
(an absent header is falsy). -/
def acceptsHtml : Option String → Bool
  | none => false
  | some a => containsChars a.data "text/html".data

/-- Embedding of `validateCors`: on a cross-origin request, overwrite the
request-scoped cookie view's `token`, `refreshToken` and `verifier` with
`null`. The sharing of this mutated view with every later
`getRequestCookies()` read in the same request is modelled from the spec
(`cookies.ts` is not among the sources). -/
def validateCors (origin : Option String) (selfOrigin : String)
    (cookies : Cookies) : Cookies :=
  if isCorsOrigin origin selfOrigin then
    { token := none, refreshToken := none, verifier := none }
  else
    cookies

def REQUIRED_TOKEN_LIFETIME_MS : Int := 60000

def MINIMUM_REQUIRED_TOKEN_LIFETIME_MS : Int := 10000

/-- Embedding of `getRefreshedTokens`. The returned value renders the
source's `undefined`/`null`/pair as `none`/`some none`/`some (some pair)`;
the second component records the backend calls made. `now` is `Date.now()`
in milliseconds. Note that the `throw` for a result lacking `tokens` sits
inside the function's own `try`, so its `catch` turns it into `null`. -/
def getRefreshedTokens (cookies : Cookies) (now : Int)
    (decodeToken : String → Option DecodedToken)
    (backend : AuthCall → BackendReply) :
    Option (Option TokenPair) × List AuthCall :=
  match cookies.token, cookies.refreshToken with
  | none, none => (none, [])
  | none, some _ => (some none, [])
  | some _, none => (some none, [])
  | some token, some refreshToken =>
    match decodeToken token with
    | none => (some none, [])
    | some decoded =>
      let totalTokenLifetimeMs := decoded.exp * 1000 - decoded.iat * 1000
      let minimumExpiration := now +
        min REQUIRED_TOKEN_LIFETIME_MS
          (max MINIMUM_REQUIRED_TOKEN_LIFETIME_MS (totalTokenLifetimeMs / 10))
      if minimumExpiration < decoded.exp * 1000 then
        (none, [])
      else
        match backend (.refresh refreshToken) with
        | .ok (.tokens pair) => (some pair, [.refresh refreshToken])
        | .ok (.redirect _ _) => (some none, [.refresh refreshToken])
        | .ok .empty => (some none, [.refresh refreshToken])
        | .err => (some none, [.refresh refreshToken])

/-- A redirect response produced by the code-exchange branch:
`authCookies = some p` means `setAuthCookies` wrote the pair `p`,
`none` means it cleared all auth cookies. -/
structure RedirectResponse where
  url : Url
  authCookies : Option TokenPair
deriving DecidableEq

inductive AuthOutcome where
  | redirect (response : RedirectResponse)
  | refreshTokens (tokens : Option (Option TokenPair))
deriving DecidableEq

/-- Embedding of `handleAuthenticationInRequest`: validate CORS, refresh
tokens if necessary, then (on a GET navigation with a truthy `code` query
parameter and an html-accepting `Accept` header) exchange the code together
with the `verifier` cookie for a token pair and redirect to the URL with the
`code` parameter removed. The second component records every backend call
made on behalf of the request, in order. -/
def handleAuthenticationInRequest (request : AuthRequest)
    (requestCookies : Cookies) (now : Int)
    (decodeToken : String → Option DecodedToken)
    (backend : AuthCall → BackendReply) : AuthOutcome × List AuthCall :=
  let cookies := validateCors request.origin request.requestOrigin requestCookies
  let refreshed := getRefreshedTokens cookies now decodeToken backend
  match searchParamGet request.urlParams "code" with
  | none => (.refreshTokens refreshed.1, refreshed.2)
  | some code =>
    if code ≠ "" ∧ request.method = "GET" ∧ acceptsHtml request.accept = true then
      let verifier := cookies.verifier
      let redirectUrl : Url :=
        { base := request.urlBase, params := searchParamDelete request.urlParams "code" }
      match backend (.exchange code verifier) with
      | .ok (.tokens pair) =>
        (.redirect { url := redirectUrl, authCookies := pair },
          refreshed.2 ++ [.exchange code verifier])
      | .ok (.redirect _ _) =>
        (.redirect { url := redirectUrl, authCookies := none },
          refreshed.2 ++ [.exchange code verifier])
      | .ok .empty =>
        (.redirect { url := redirectUrl, authCookies := none },
          refreshed.2 ++ [.exchange code verifier])
      | .err =>
        (.redirect { url := redirectUrl, authCookies := none },
          refreshed.2 ++ [.exchange code verifier])
    else
      (.refreshTokens refreshed.1, refreshed.2)

/-! Helper lemmas -/

theorem signInResponse_backendCall (r : SignInResult) (call : BackendCall) :
    (signInResponse r call).backendCall = some call := by
  cases r <;> rfl

theorem signInResponse_refreshTokenField (r : SignInResult) (call : BackendCall) :
    (signInResponse r call).body.refreshTokenField = none ∨
      (signInResponse r call).body.refreshTokenField = some "dummy" := by
  cases r with
  | redirect u v => exact Or.inl rfl
  | tokens pair =>
    cases pair with
    | none => exact Or.inl rfl
    | some p => exact Or.inr rfl
  | empty => exact Or.inl rfl

theorem getRefreshedTokens_calls_length (cookies : Cookies) (now : Int)
    (decodeToken : String → Option DecodedToken)
    (backend : AuthCall → BackendReply) :
    ((getRefreshedTokens cookies now decodeToken backend).2).length ≤ 1 := by
  unfold getRefreshedTokens
  split <;> try simp
  split <;> try simp
  split
  · simp
  · split <;> simp

/-! Sample inputs used by witnesses and counterexamples -/

def sampleSignInReq : ProxyRequest :=
  { method := "POST", origin := none, requestOrigin := "https://app.example",
    action := "auth:signIn", args := { refreshToken := some "dummy", rest := [] } }

def sampleBackendPair : BackendCall → SignInResult :=
  fun _ => .tokens (some { token := "t2", refreshToken := "r2" })

def sampleDecode : String → Option DecodedToken :=
  fun t => if t = "tok" then some { exp := 1000, iat := 0 } else none

def sampleAuthBackendPair : AuthCall → BackendReply :=
  fun _ => .ok (.tokens (some { token := "t2", refreshToken := "r2" }))

def sampleAuthBackendEmpty : AuthCall → BackendReply :=
  fun _ => .ok .empty

def sampleAuthBackendNull : AuthCall → BackendReply :=
  fun _ => .ok (.tokens none)

def sampleAuthBackendErr : AuthCall → BackendReply :=
  fun _ => .err

def sampleExchangeReq : AuthRequest :=
  { urlBase := "https://app.example/cb", urlParams := [("code", "abc")],
    method := "GET", accept := some "text/html", origin := none,
    requestOrigin := "https://app.example" }

/-! Claim theorems -/

/-- Claim C10: `shouldProxyAuthAction` returns true iff the request pathname
equals the configured `apiRoute` with or without a single trailing slash, and
for an `apiRoute` not ending in a slash the answer is unchanged when the
route is configured with a trailing slash appended. -/
theorem shouldProxyAuthAction_trailing_slash (p R : String) :
    (shouldProxyAuthAction p R = true ↔ p = routeWithoutSlash R ∨ p = routeWithSlash R)
    ∧ (jsEndsWithSlash R = false →
        shouldProxyAuthAction p R = shouldProxyAuthAction p (R ++ "/")) := by
  have hslash : ("/" : String).data = ['/'] := rfl
  constructor
  · unfold shouldProxyAuthAction routeWithoutSlash routeWithSlash
    split
    all_goals simp only [Bool.or_eq_true, beq_iff_eq]
    all_goals try tauto
  · intro h
    have h1 : jsEndsWithSlash (R ++ "/") = true := by
      simp [jsEndsWithSlash, String.data_append, hslash]
    have h2 : jsDropLast (R ++ "/") = R := by
      simp only [jsDropLast, String.data_append, hslash, List.dropLast_concat]
    simp only [shouldProxyAuthAction, h, h1, if_true, Bool.false_eq_true, if_false, h2]
    exact Bool.or_comm _ _

theorem shouldProxyAuthAction_trailing_slash_witness :
    shouldProxyAuthAction "/api/auth" "/api/auth" =
      shouldProxyAuthAction "/api/auth" ("/api/auth" ++ "/") :=
  (shouldProxyAuthAction_trailing_slash "/api/auth" "/api/auth").2 (by decide)

/-- Claim C8: a `signIn` proxy call whose args carry a `refreshToken` field
while the `refreshToken` cookie is absent short-circuits with a 200 response
whose body is `{ tokens: null }`, performing no backend call and touching no
cookies. -/
theorem proxy_refresh_without_cookie_short_circuits
    (req : ProxyRequest) (cookies : Cookies)
    (backend : BackendCall → SignInResult)
    (hm : req.method = "POST")
    (hc : isCorsOrigin req.origin req.requestOrigin = false)
    (ha : req.action = "auth:signIn")
    (hr : req.args.refreshToken ≠ none)
    (hcookie : cookies.refreshToken = none) :
    proxyAuthActionToConvex req cookies backend =
      { status := 200, body := .tokensNull, authCookies := none,
        verifierCookie := none, backendCall := none } := by
  simp [proxyAuthActionToConvex, hm, hc, ha, hr, hcookie]

theorem proxy_refresh_without_cookie_short_circuits_witness :
    proxyAuthActionToConvex sampleSignInReq ⟨none, none, none⟩ sampleBackendPair =
      { status := 200, body := .tokensNull, authCookies := none,
        verifierCookie := none, backendCall := none } :=
  proxy_refresh_without_cookie_short_circuits sampleSignInReq ⟨none, none, none⟩
    sampleBackendPair rfl rfl rfl (by decide) rfl

/-- Claim C1: whenever the `signIn` proxy's backend result carries a non-null
token pair, the JSON body sent to the client carries the access token
together with the literal string "dummy" in the `refreshToken` field; and in
every response the proxy produces, the `refreshToken` field of the JSON body
is either absent or the literal "dummy" — the real refresh token value is
never written into a body under its own field name. -/
theorem proxy_masks_refreshToken (req : ProxyRequest) (cookies : Cookies)
    (backend : BackendCall → SignInResult) :
    (∀ call pair, req.action = "auth:signIn" →
        (proxyAuthActionToConvex req cookies backend).backendCall = some call →
        backend call = .tokens (some pair) →
        (proxyAuthActionToConvex req cookies backend).body =
          .clientTokens pair.token "dummy")
    ∧ ((proxyAuthActionToConvex req cookies backend).body.refreshTokenField = none ∨
        (proxyAuthActionToConvex req cookies backend).body.refreshTokenField = some "dummy") := by
  unfold proxyAuthActionToConvex
  split
  · exact ⟨fun call pair _ hcall => by simp at hcall, Or.inl rfl⟩
  split
  · exact ⟨fun call pair _ hcall => by simp at hcall, Or.inl rfl⟩
  split
  · exact ⟨fun call pair _ hcall => by simp at hcall, Or.inl rfl⟩
  split
  · split
    · exact ⟨fun call pair _ hcall => by simp at hcall, Or.inl rfl⟩
    · refine ⟨?_, signInResponse_refreshTokenField _ _⟩
      intro call pair _ hcall hres
      rw [signInResponse_backendCall] at hcall
      cases Option.some.inj hcall
      simp only [hres]
      rfl
  · split
    · refine ⟨?_, signInResponse_refreshTokenField _ _⟩
      intro call pair _ hcall hres
      rw [signInResponse_backendCall] at hcall
      cases Option.some.inj hcall
      simp only [hres]
      rfl
    · rename_i hnotsignin
      exact ⟨fun call pair ha _ _ => absurd ha hnotsignin, Or.inl rfl⟩

theorem proxy_masks_refreshToken_witness :
    (proxyAuthActionToConvex sampleSignInReq ⟨none, some "realrt", none⟩
        sampleBackendPair).body = .clientTokens "t2" "dummy" :=
  (proxy_masks_refreshToken sampleSignInReq ⟨none, some "realrt", none⟩
      sampleBackendPair).1
    { action := "auth:signIn", args := { refreshToken := some "realrt", rest := [] },
      token := none }
    { token := "t2", refreshToken := "r2" } rfl (by decide) rfl

/-- Claim C6: the proxy rejects non-POST requests with 405, cross-origin
POSTs with 403, and POSTs whose body names an unrecognized action with 400;
a backend invocation happens only for requests passing all three checks. -/
theorem proxy_guards (req : ProxyRequest) (cookies : Cookies)
    (backend : BackendCall → SignInResult) :
    (req.method ≠ "POST" →
        (proxyAuthActionToConvex req cookies backend).status = 405)
    ∧ (req.method = "POST" →
        isCorsOrigin req.origin req.requestOrigin = true →
        (proxyAuthActionToConvex req cookies backend).status = 403)
    ∧ (req.method = "POST" →
        isCorsOrigin req.origin req.requestOrigin = false →
        req.action ≠ "auth:signIn" → req.action ≠ "auth:signOut" →
        (proxyAuthActionToConvex req cookies backend).status = 400)
    ∧ (∀ call, (proxyAuthActionToConvex req cookies backend).backendCall = some call →
        req.method = "POST"
        ∧ isCorsOrigin req.origin req.requestOrigin = false
        ∧ (req.action = "auth:signIn" ∨ req.action = "auth:signOut")) := by
  refine ⟨?_, ?_, ?_, ?_⟩
  · intro hm
    simp [proxyAuthActionToConvex, hm]
  · intro hm hc
    simp [proxyAuthActionToConvex, hm, hc]
  · intro hm hc h1 h2
    simp [proxyAuthActionToConvex, hm, hc, h1, h2]
  · intro call hcall
    unfold proxyAuthActionToConvex at hcall
    split at hcall
    · simp at hcall
    rename_i hm
    split at hcall
    · simp at hcall
    rename_i hc
    split at hcall
    · simp at hcall
    rename_i hact
    rw [not_and_or, not_not, not_not] at hact
    refine ⟨not_not.mp hm, Bool.eq_false_iff.mpr hc, ?_⟩
    by_cases h1 : req.action = "auth:signIn"
    · exact Or.inl h1
    · rcases hact with h | h
      · exact absurd h h1
      · exact Or.inr h

theorem proxy_guards_witness :
    (proxyAuthActionToConvex
        { method := "GET", origin := none, requestOrigin := "https://app.example",
          action := "auth:signIn", args := { refreshToken := none, rest := [] } }
        ⟨none, none, none⟩ sampleBackendPair).status = 405 :=
  (proxy_guards
      { method := "GET", origin := none, requestOrigin := "https://app.example",
        action := "auth:signIn", args := { refreshToken := none, rest := [] } }
      ⟨none, none, none⟩ sampleBackendPair).1 (by decide)

/-- Claim C9: for a `signIn` proxy call, the cookie substitution is triggered
by mere presence of the `refreshToken` args field: any two client-supplied
values produce identical proxy responses (in particular identical backend
invocations), and whenever a backend call is made its `refreshToken`
argument equals the cookie-held value, never the client-supplied one. -/
theorem proxy_placeholder_presence (req : ProxyRequest) (v₁ v₂ : String)
    (cookies : Cookies) (backend : BackendCall → SignInResult)
    (ha : req.action = "auth:signIn") :
    proxyAuthActionToConvex
        { req with args := { req.args with refreshToken := some v₁ } } cookies backend
      = proxyAuthActionToConvex
        { req with args := { req.args with refreshToken := some v₂ } } cookies backend
    ∧ (∀ call,
        (proxyAuthActionToConvex
            { req with args := { req.args with refreshToken := some v₁ } }
            cookies backend).backendCall = some call →
        call.args.refreshToken = cookies.refreshToken) := by
  by_cases hm : req.method = "POST"
  · by_cases hc : isCorsOrigin req.origin req.requestOrigin = true
    · constructor
      · simp [proxyAuthActionToConvex, hm, hc]
      · intro call hcall
        simp [proxyAuthActionToConvex, hm, hc] at hcall
    · rw [Bool.not_eq_true] at hc
      cases hcookie : cookies.refreshToken with
      | none =>
        constructor
        · simp [proxyAuthActionToConvex, hm, hc, ha, hcookie]
        · intro call hcall
          simp [proxyAuthActionToConvex, hm, hc, ha, hcookie] at hcall
      | some rt =>
        constructor
        · simp [proxyAuthActionToConvex, hm, hc, ha, hcookie]
        · intro call hcall
          simp [proxyAuthActionToConvex, hm, hc, ha, hcookie,
            signInResponse_backendCall] at hcall
          subst hcall
          rfl
  · constructor
    · simp [proxyAuthActionToConvex, hm]
    · intro call hcall
      simp [proxyAuthActionToConvex, hm] at hcall

theorem proxy_placeholder_presence_witness :
    proxyAuthActionToConvex
        { sampleSignInReq with
          args := { sampleSignInReq.args with refreshToken := some "dummy" } }
        ⟨none, some "realrt", none⟩ sampleBackendPair
      = proxyAuthActionToConvex
        { sampleSignInReq with
          args := { sampleSignInReq.args with refreshToken := some "other" } }
        ⟨none, some "realrt", none⟩ sampleBackendPair :=
  (proxy_placeholder_presence sampleSignInReq "dummy" "other"
      ⟨none, some "realrt", none⟩ sampleBackendPair rfl).1

/-- Claim C2: on a request whose `Origin` header marks it as cross-origin,
`validateCors` overwrites the request-scoped cookie view's `token`,
`refreshToken` and `verifier` with `null` before anything else runs, and the
whole authenticator's behaviour is therefore independent of the incoming
auth cookie values. -/
theorem cors_strips_cookies (request : AuthRequest) (cookies cookies' : Cookies)
    (now : Int) (decodeToken : String → Option DecodedToken)
    (backend : AuthCall → BackendReply)
    (h : isCorsOrigin request.origin request.requestOrigin = true) :
    validateCors request.origin request.requestOrigin cookies =
      { token := none, refreshToken := none, verifier := none }
    ∧ handleAuthenticationInRequest request cookies now decodeToken backend =
        handleAuthenticationInRequest request cookies' now decodeToken backend := by
  constructor
  · simp [validateCors, h]
  · simp [handleAuthenticationInRequest, validateCors, h]

def sampleCorsReq : AuthRequest :=
  { urlBase := "https://app.example/page", urlParams := [],
    method := "GET", accept := some "text/html",
    origin := some "https://evil.example", requestOrigin := "https://app.example" }

theorem cors_strips_cookies_witness :
    validateCors sampleCorsReq.origin sampleCorsReq.requestOrigin
        ⟨some "a", some "b", some "c"⟩ =
      { token := none, refreshToken := none, verifier := none }
    ∧ handleAuthenticationInRequest sampleCorsReq ⟨some "a", some "b", some "c"⟩ 0
        sampleDecode sampleAuthBackendPair =
      handleAuthenticationInRequest sampleCorsReq ⟨none, some "x", none⟩ 0
        sampleDecode sampleAuthBackendPair :=
  cors_strips_cookies sampleCorsReq ⟨some "a", some "b", some "c"⟩
    ⟨none, some "x", none⟩ 0 sampleDecode sampleAuthBackendPair (by decide)

/-- Claim C3, amended: with both auth cookies present and a decodable token,
the scheduler performs the backend refresh call iff
`exp*1000 ≤ now + min(60_000, max(10_000, (exp - iat)*1000 / 10))`.
For a token with 1000 seconds of total lifetime, 10% of the lifetime exceeds
the one-minute cap, so the refresh fires when 60 seconds or less remain —
not already at 100 seconds. -/
theorem refresh_trigger_formula (t rt : String) (v : Option String)
    (d : DecodedToken) (now : Int)
    (decodeToken : String → Option DecodedToken)
    (backend : AuthCall → BackendReply)
    (hdec : decodeToken t = some d) :
    ((getRefreshedTokens ⟨some t, some rt, v⟩ now decodeToken backend).2 ≠ [] ↔
        d.exp * 1000 ≤ now + min 60000 (max 10000 ((d.exp - d.iat) * 1000 / 10)))
    ∧ (d.exp = 1000 → d.iat = 0 →
        ((getRefreshedTokens ⟨some t, some rt, v⟩ now decodeToken backend).2 ≠ [] ↔
          1000 * 1000 ≤ now + 60000)) := by
  have main : (getRefreshedTokens ⟨some t, some rt, v⟩ now decodeToken backend).2 ≠ [] ↔
      d.exp * 1000 ≤ now + min 60000 (max 10000 ((d.exp - d.iat) * 1000 / 10)) := by
    rw [sub_mul]
    unfold getRefreshedTokens REQUIRED_TOKEN_LIFETIME_MS MINIMUM_REQUIRED_TOKEN_LIFETIME_MS
    simp only [hdec]
    split
    · rename_i hskip
      exact iff_of_false (by simp) (not_le.mpr hskip)
    · rename_i hdue
      refine iff_of_true ?_ (not_lt.mp hdue)
      cases hb : backend (.refresh rt) with
      | err => simp [hb]
      | ok r => cases r <;> simp [hb]
  refine ⟨main, fun he hi => ?_⟩
  rw [main, he, hi]
  norm_num

theorem refresh_trigger_formula_witness :
    (getRefreshedTokens ⟨some "tok", some "rt", none⟩ 1000000 sampleDecode
        sampleAuthBackendPair).2 ≠ [] ↔
      (1000 : Int) * 1000 ≤ 1000000 + min 60000 (max 10000 ((1000 - 0) * 1000 / 10)) :=
  (refresh_trigger_formula "tok" "rt" none { exp := 1000, iat := 0 } 1000000
      sampleDecode sampleAuthBackendPair rfl).1

/-- Claim C3 counterexample: a token with 1000 seconds of total lifetime
(`exp = 1000`, `iat = 0`) and exactly 100 seconds remaining
(`now = 900000` ms) is NOT refreshed — the scheduler makes no backend call —
refuting the claim's statement that such a token is refreshed when 100
seconds or less remain. -/
theorem refresh_boundary_counterexample :
    (getRefreshedTokens ⟨some "tok", some "rt", none⟩ 900000 sampleDecode
        sampleAuthBackendPair).2 = []
    ∧ (1000 : Int) * 1000 - 900000 ≤ 100 * 1000 := by
  constructor
  · decide
  · decide

/-- Claim C4, amended: a single inbound request performs at most two backend
round trips: the proxy makes at most its single call, and the authenticator
makes the scheduler's optional refresh call and, on a qualifying GET
navigation with a code parameter, additionally the code-exchange call. -/
theorem at_most_two_backend_calls (request : AuthRequest) (cookies : Cookies)
    (now : Int) (decodeToken : String → Option DecodedToken)
    (backend : AuthCall → BackendReply) :
    ((handleAuthenticationInRequest request cookies now decodeToken backend).2).length ≤ 2 := by
  have hr := getRefreshedTokens_calls_length
    (validateCors request.origin request.requestOrigin cookies) now decodeToken backend
  unfold handleAuthenticationInRequest
  split
  · simpa using hr.trans (by norm_num)
  · split
    · unfold_let
      split <;> simp <;> omega
    · simpa using hr.trans (by norm_num)

/-- Claim C4 counterexample: a qualifying GET navigation with a `code` query
parameter, an html-accepting Accept header, and auth cookies whose access
token is due for refresh performs two backend calls in one request — first
the refresh call, then the code-exchange call — refuting "at most one
backend action call per request". -/
theorem single_roundtrip_counterexample :
    ((handleAuthenticationInRequest sampleExchangeReq
        ⟨some "tok", some "rt", some "v1"⟩ 1000000 sampleDecode
        sampleAuthBackendPair).2) =
      [.refresh "rt", .exchange "abc" (some "v1")] := by
  decide

/-- Claim C5, amended: in the refresh scheduler, a backend result lacking a
`tokens` field is thrown as an internal error but immediately caught by the
scheduler's own try/catch, so it collapses to outcome invalid (`null`) just
like a `tokens: null` result and a transport failure; only a result with a
concrete token pair yields outcome refreshed(pair). -/
theorem refresh_failure_collapse (t rt : String) (v : Option String)
    (d : DecodedToken) (now : Int)
    (decodeToken : String → Option DecodedToken)
    (backend : AuthCall → BackendReply)
    (hdec : decodeToken t = some d)
    (hdue : d.exp * 1000 ≤ now +
      min REQUIRED_TOKEN_LIFETIME_MS
        (max MINIMUM_REQUIRED_TOKEN_LIFETIME_MS ((d.exp * 1000 - d.iat * 1000) / 10))) :
    (backend (.refresh rt) = .err →
        (getRefreshedTokens ⟨some t, some rt, v⟩ now decodeToken backend).1 = some none)
    ∧ (backend (.refresh rt) = .ok (.tokens none) →
        (getRefreshedTokens ⟨some t, some rt, v⟩ now decodeToken backend).1 = some none)
    ∧ (backend (.refresh rt) = .ok .empty →
        (getRefreshedTokens ⟨some t, some rt, v⟩ now decodeToken backend).1 = some none)
    ∧ (∀ u w, backend (.refresh rt) = .ok (.redirect u w) →
        (getRefreshedTokens ⟨some t, some rt, v⟩ now decodeToken backend).1 = some none)
    ∧ (∀ p, backend (.refresh rt) = .ok (.tokens (some p)) →
        (getRefreshedTokens ⟨some t, some rt, v⟩ now decodeToken backend).1 = some (some p)) := by
  have hout : ∀ reply, backend (.refresh rt) = reply →
      (getRefreshedTokens ⟨some t, some rt, v⟩ now decodeToken backend).1 =
        (match reply with
          | .ok (.tokens pair) => some pair
          | _ => some none) := by
    intro reply hb
    unfold getRefreshedTokens
    simp only [hdec]
    rw [if_neg (not_lt.mpr hdue), hb]
    cases reply with
    | err => rfl
    | ok r => cases r <;> rfl
  refine ⟨fun hb => hout _ hb, fun hb => hout _ hb, fun hb => hout _ hb,
    fun u w hb => hout _ hb, fun p hb => hout _ hb⟩

theorem refresh_failure_collapse_witness :
    (getRefreshedTokens ⟨some "tok", some "rt", none⟩ 1000000 sampleDecode
        sampleAuthBackendErr).1 = some none :=
  (refresh_failure_collapse "tok" "rt" none { exp := 1000, iat := 0 } 1000000
      sampleDecode sampleAuthBackendErr rfl (by decide)).1 rfl

/-- Claim C5 counterexample: with the token due for refresh, a backend
result that lacks the `tokens` field entirely (the empty shape) produces
outcome `some none` — the scheduler's invalid outcome, the same value a
`tokens: null` result produces — refuting the claim that such a result is
raised as an internal fault and not collapsed to invalid. -/
theorem refresh_fault_counterexample :
    (getRefreshedTokens ⟨some "tok", some "rt", none⟩ 1000000 sampleDecode
        sampleAuthBackendEmpty).1 = some none
    ∧ (getRefreshedTokens ⟨some "tok", some "rt", none⟩ 1000000 sampleDecode
        sampleAuthBackendNull).1 = some none := by
  constructor
  · decide
  · decide

/-- Claim C7: a qualifying code-exchange request (GET, html-accepting Accept
header, non-empty `code` query parameter) always yields a redirect to the
same URL with the `code` parameter removed; on success with a concrete token
pair the redirect sets the auth cookies to that pair, and on a thrown
backend error or a result lacking `tokens` (and on `tokens: null`) the
redirect clears all auth cookies. -/
theorem code_exchange_redirects (request : AuthRequest) (cookies : Cookies)
    (now : Int) (decodeToken : String → Option DecodedToken)
    (backend : AuthCall → BackendReply) (code : String)
    (hcode : searchParamGet request.urlParams "code" = some code)
    (hne : code ≠ "") (hget : request.method = "GET")
    (haccept : acceptsHtml request.accept = true) :
    (∀ p, backend (.exchange code
          (validateCors request.origin request.requestOrigin cookies).verifier) =
            .ok (.tokens (some p)) →
        (handleAuthenticationInRequest request cookies now decodeToken backend).1 =
          .redirect { url := { base := request.urlBase,
                               params := searchParamDelete request.urlParams "code" },
                      authCookies := some p })
    ∧ (backend (.exchange code
          (validateCors request.origin request.requestOrigin cookies).verifier) =
            .ok (.tokens none) →
        (handleAuthenticationInRequest request cookies now decodeToken backend).1 =
          .redirect { url := { base := request.urlBase,
                               params := searchParamDelete request.urlParams "code" },
                      authCookies := none })
    ∧ (backend (.exchange code
          (validateCors request.origin request.requestOrigin cookies).verifier) =
            .ok .empty →
        (handleAuthenticationInRequest request cookies now decodeToken backend).1 =
          .redirect { url := { base := request.urlBase,
                               params := searchParamDelete request.urlParams "code" },
                      authCookies := none })
    ∧ (∀ u w, backend (.exchange code
          (validateCors request.origin request.requestOrigin cookies).verifier) =
            .ok (.redirect u w) →
        (handleAuthenticationInRequest request cookies now decodeToken backend).1 =
          .redirect { url := { base := request.urlBase,
                               params := searchParamDelete request.urlParams "code" },
                      authCookies := none })
    ∧ (backend (.exchange code
          (validateCors request.origin request.requestOrigin cookies).verifier) =
            .err →
        (handleAuthenticationInRequest request cookies now decodeToken backend).1 =
          .redirect { url := { base := request.urlBase,
                               params := searchParamDelete request.urlParams "code" },
                      authCookies := none }) := by
  have hout : ∀ reply, backend (.exchange code
        (validateCors request.origin request.requestOrigin cookies).verifier) = reply →
      (handleAuthenticationInRequest request cookies now decodeToken backend).1 =
        .redirect { url := { base := request.urlBase,
                             params := searchParamDelete request.urlParams "code" },
                    authCookies :=
                      match reply with
                      | .ok (.tokens pair) => pair
                      | _ => none } := by
    intro reply hb
    unfold handleAuthenticationInRequest
    simp only [hcode]
    rw [if_pos ⟨hne, hget, haccept⟩, hb]
    cases reply with
    | err => rfl
    | ok r => cases r <;> rfl
  refine ⟨fun p hb => hout _ hb, fun hb => hout _ hb, fun hb => hout _ hb,
    fun u w hb => hout _ hb, fun hb => hout _ hb⟩

theorem code_exchange_redirects_witness :
    (handleAuthenticationInRequest sampleExchangeReq ⟨none, none, some "v1"⟩ 0
        sampleDecode sampleAuthBackendPair).1 =
      .redirect { url := { base := "https://app.example/cb", params := [] },
                  authCookies := some { token := "t2", refreshToken := "r2" } } :=
  (code_exchange_redirects sampleExchangeReq ⟨none, none, some "v1"⟩ 0
      sampleDecode sampleAuthBackendPair "abc" (by decide) (by decide) rfl
      (by decide)).1 { token := "t2", refreshToken := "r2" } rfl

end ConvexAuth
